import Mathlib

/-!
Verification development for a 16-bit instruction-set simulator.

The simulator consists of:
* a decode/execute engine (`cpu.rs`): 32 sixteen-bit registers, a 16-bit
  program counter and a word-addressed memory of 65536 sixteen-bit cells,
  stepped one instruction at a time;
* a disassembler (`disassemble.rs`): a pure function from an instruction
  word and an immediate word to a display string;
* a command interpreter (`app.rs`) that parses RUN/HALT/STEP/LOAD commands
  and drives the engine.

The embedding below models 16-bit machine words as natural numbers that are
kept below 2^16 by explicit modular arithmetic, registers and memory as
total functions from indices to values, and each Rust function as a Lean
function with the same branch structure.

Shift instructions in the source use the host language's plain shift
operators, whose behaviour on an out-of-range amount depends on the build
profile: with overflow checks enabled the program stops with an arithmetic
overflow, and with the checks disabled the shift amount is reduced
modulo the bit width.  The step function below uses the unchecked
(masked) semantics; the separate predicate `stepShiftPanics` captures
exactly the inputs on which an overflow-checked build would stop.
-/

/-- Machine state of the execute engine, mirroring `struct Cpu`:
32 general registers (register 0 is meant to be hardwired to zero, the
storage slot exists only to simplify indexing), a 16-bit program counter
and 65536 sixteen-bit memory cells.  Registers and memory are modelled as
total functions; only indices below 32 resp. 65536 are ever used. -/
structure Cpu where
  registers : Nat → Nat
  program_counter : Nat
  ram : Nat → Nat

/-- Pointwise function update, used for register and memory writes. -/
def upd (f : Nat → Nat) (i v : Nat) : Nat → Nat :=
  fun j => if j = i then v else f j

/-- `u16::wrapping_add`. -/
def wadd (a b : Nat) : Nat := (a + b) % 65536

/-- `u16::wrapping_sub`. -/
def wsub (a b : Nat) : Nat := (a + (65536 - b % 65536)) % 65536

/-- The signed (two's-complement) reading of a 16-bit word, `x as i16`. -/
def toInt16 (n : Nat) : Int :=
  if n % 65536 < 32768 then (↑(n % 65536) : Int) else (↑(n % 65536) : Int) - 65536

/-- The 16-bit two's-complement bit pattern of a signed value, `x as u16`. -/
def i16bits (v : Int) : Nat := (v % 65536).toNat

/-- `(x as i16).is_positive()`. -/
def isPos16 (n : Nat) : Bool := decide (0 < toInt16 n)

/-- Bit pattern of the wrapping 16-bit negation `-(x as i16)`. -/
def negBits (n : Nat) : Nat := (65536 - n % 65536) % 65536

/-- Unchecked `u16` left shift: the shift amount is reduced modulo the bit
width, the result is truncated to 16 bits. -/
def shlMask (a b : Nat) : Nat := (a <<< (b % 16)) % 65536

/-- Unchecked `u16` logical right shift: the amount is reduced modulo the
bit width. -/
def shrMask (a b : Nat) : Nat := (a % 65536) >>> (b % 16)

/-- Unchecked `i16` arithmetic right shift of a 16-bit word, result taken
back as a bit pattern: `((d as i16) >> b) as u16` with the amount reduced
modulo the bit width.  Flooring division by a power of two is exactly the
arithmetic shift. -/
def sraMask (d b : Nat) : Nat := i16bits ((toInt16 d).fdiv (2 ^ (b % 16)))

/-- `u16::wrapping_add_signed`. -/
def waddSigned (pc : Nat) (off : Int) : Nat := (((pc : Int) + off) % 65536).toNat

/-- The source register index, bits 15 to 11 of the instruction word:
`(instruction & 0b1111100000000000) >> 11`. -/
def srcIndex (instruction : Nat) : Nat := (instruction &&& 0b1111100000000000) >>> 11

/-- The destination register index, bits 10 to 6 of the instruction word:
`(instruction & 0b0000011111000000) >> 6`. -/
def dstIndex (instruction : Nat) : Nat := (instruction &&& 0b0000011111000000) >>> 6

/-- The sign-extended reading of the ten instruction bits 15 to 6, used by
opcode 0b101001 (JSH): `(instruction & 0b1111111111000000) as i16 >> 6`;
the arithmetic right shift by six is flooring division by 64. -/
def jshOffset (instruction : Nat) : Int :=
  (toInt16 (instruction &&& 0b1111111111000000)).fdiv 64

/-- One step of the execute engine, `Cpu::step`: fetch the instruction word
at the program counter and the immediate word at the following address,
decode the three bit fields, and dispatch on the 6-bit opcode.  A source
field of all zeroes reads as 0x0000 directly; the destination field always
names a storage slot, including slot 0.  Opcodes not listed fall to
the final branch, which changes nothing at all. -/
def step (c : Cpu) : Cpu :=
  let instruction := c.ram c.program_counter
  let immediate := c.ram (wadd c.program_counter 1)
  let source :=
    if instruction &&& 0b1111100000000000 = 0 then 0
    else c.registers (srcIndex instruction)
  let d := dstIndex instruction
  let opcode := instruction &&& 0b0000000000111111
  if opcode = 0b000000 then -- ADD
    { c with registers := upd c.registers d (wadd (c.registers d) source),
             program_counter := wadd c.program_counter 1 }
  else if opcode = 0b000001 then -- SUB
    { c with registers := upd c.registers d (wsub (c.registers d) source),
             program_counter := wadd c.program_counter 1 }
  else if opcode = 0b000010 then -- AND
    { c with registers := upd c.registers d (c.registers d &&& source),
             program_counter := wadd c.program_counter 1 }
  else if opcode = 0b000011 then -- OR
    { c with registers := upd c.registers d (c.registers d ||| source),
             program_counter := wadd c.program_counter 1 }
  else if opcode = 0b000100 then -- XOR
    { c with registers := upd c.registers d (c.registers d ^^^ source),
             program_counter := wadd c.program_counter 1 }
  else if opcode = 0b000101 then -- SLL
    { c with registers := upd c.registers d
               (if isPos16 source then shlMask (c.registers d) source
                else shrMask (c.registers d) (negBits source)),
             program_counter := wadd c.program_counter 1 }
  else if opcode = 0b000110 then -- SRL
    { c with registers := upd c.registers d
               (if isPos16 source then shrMask (c.registers d) source
                else shlMask (c.registers d) (negBits source)),
             program_counter := wadd c.program_counter 1 }
  else if opcode = 0b000111 then -- SRA
    { c with registers := upd c.registers d
               (if isPos16 source then sraMask (c.registers d) source
                else shlMask (c.registers d) (negBits source)),
             program_counter := wadd c.program_counter 1 }
  else if opcode = 0b001000 then -- ADDI
    { c with registers := upd c.registers d (wadd source immediate),
             program_counter := wadd c.program_counter 2 }
  else if opcode = 0b001010 then -- ANDI
    { c with registers := upd c.registers d (source &&& immediate),
             program_counter := wadd c.program_counter 2 }
  else if opcode = 0b001011 then -- ORI
    { c with registers := upd c.registers d (source ||| immediate),
             program_counter := wadd c.program_counter 2 }
  else if opcode = 0b001100 then -- XORI
    { c with registers := upd c.registers d (source ^^^ immediate),
             program_counter := wadd c.program_counter 2 }
  else if opcode = 0b001101 then -- SFTI
    { c with registers := upd c.registers d
               (if isPos16 immediate then shlMask source immediate
                else shrMask source (negBits immediate)),
             program_counter := wadd c.program_counter 2 }
  else if opcode = 0b001111 then -- SRAI
    { c with registers := upd c.registers d
               (if isPos16 immediate then sraMask source immediate
                else shlMask source (negBits immediate)),
             program_counter := wadd c.program_counter 2 }
  else if opcode = 0b010000 then -- LD
    { c with registers := upd c.registers d (c.ram source),
             program_counter := wadd c.program_counter 1 }
  else if opcode = 0b010001 then -- ST
    { c with ram := upd c.ram source (c.registers d),
             program_counter := wadd c.program_counter 1 }
  else if opcode = 0b011000 then -- LDIO
    { c with registers := upd c.registers d (c.ram (wadd source immediate)),
             program_counter := wadd c.program_counter 2 }
  else if opcode = 0b011001 then -- STIO
    { c with ram := upd c.ram (wadd source immediate) (c.registers d),
             program_counter := wadd c.program_counter 2 }
  else if opcode = 0b101000 then -- JAL
    { c with registers := upd c.registers d (wadd c.program_counter 2),
             program_counter := wadd source immediate }
  else if opcode = 0b101001 then -- JSH
    { c with program_counter := waddSigned c.program_counter (jshOffset instruction) }
  else if opcode = 0b101010 then -- BEQ
    { c with program_counter :=
        if c.registers d = source then immediate else wadd c.program_counter 2 }
  else if opcode = 0b101011 then -- BNE
    { c with program_counter :=
        if c.registers d ≠ source then immediate else wadd c.program_counter 2 }
  else if opcode = 0b101100 then -- BLT
    { c with program_counter :=
        if toInt16 (c.registers d) < toInt16 source then immediate
        else wadd c.program_counter 2 }
  else if opcode = 0b101101 then -- BGE
    { c with program_counter :=
        if toInt16 source ≤ toInt16 (c.registers d) then immediate
        else wadd c.program_counter 2 }
  else if opcode = 0b101110 then -- BLTU
    { c with program_counter :=
        if c.registers d < source then immediate else wadd c.program_counter 2 }
  else if opcode = 0b101111 then -- BGEU
    { c with program_counter :=
        if source ≤ c.registers d then immediate else wadd c.program_counter 2 }
  else
    -- instructions which are not explicitly encoded change no state at all
    c

/-- The checked-build fault condition for one 16-bit shift operand: with
overflow checks enabled, `a << b` and `a >> b` on 16-bit values stop the
program when the shift amount is 16 or more, and negating the 16-bit
minimum stops it as well.  Given the raw 16-bit operand `v` of a shift
instruction, the executed amount is `v` itself when `v` reads as a
positive signed value and the negation of `v` otherwise, so a fault
happens exactly when that executed amount is out of range or the negation
overflows. -/
def shiftFaultU (v : Nat) : Bool :=
  if isPos16 v then decide (16 ≤ v % 65536)
  else (v % 65536 == 32768) || decide (16 ≤ negBits v)

/-- Exactly the machine states on which an overflow-checked build of the
engine faults during `Cpu::step`: the fetched opcode is one of the three
register shifts and the source operand is out of range, or one of the two
immediate shifts and the immediate operand is out of range.  All other
arithmetic in the engine uses explicitly wrapping operations and can
never fault. -/
def stepShiftPanics (c : Cpu) : Bool :=
  let instruction := c.ram c.program_counter
  let immediate := c.ram (wadd c.program_counter 1)
  let source :=
    if instruction &&& 0b1111100000000000 = 0 then 0
    else c.registers (srcIndex instruction)
  let opcode := instruction &&& 0b0000000000111111
  if opcode = 0b000101 || opcode = 0b000110 || opcode = 0b000111 then
    shiftFaultU source
  else if opcode = 0b001101 || opcode = 0b001111 then
    shiftFaultU immediate
  else false

/-- The opcodes which the engine's dispatch recognises; every other 6-bit
value falls to the catch-all branch. -/
def isAssigned (op : Nat) : Bool :=
  op == 0 || op == 1 || op == 2 || op == 3 || op == 4 || op == 5 ||
  op == 6 || op == 7 || op == 8 || op == 10 || op == 11 || op == 12 ||
  op == 13 || op == 15 || op == 16 || op == 17 || op == 24 || op == 25 ||
  op == 40 || op == 41 || op == 42 || op == 43 || op == 44 || op == 45 ||
  op == 46 || op == 47

/-- Sign extension of a 10-bit field to a signed integer, as the
specification describes the JSH offset: values from 512 upwards stand for
negatives. -/
def signExt10 (b : Nat) : Int :=
  if b < 512 then (b : Int) else (b : Int) - 1024

/-- Render a register index with at least two decimal digits, zero padded,
mirroring the two-digit formatting of the disassembler. -/
def pad2 (n : Nat) : String := if n < 10 then "0" ++ Nat.repr n else Nat.repr n

/-- Render a 16-bit word as a 0x-prefixed, four-digit, lower-case
hexadecimal numeral, mirroring the six-wide zero-padded hex formatting of
the disassembler.  Negative `i16` values are printed by the source as
their two's-complement bit pattern, so one rendering covers both signed
and unsigned operands. -/
def hex4 (n : Nat) : String :=
  let m := n % 65536
  "0x" ++ String.mk [Nat.digitChar (m / 4096), Nat.digitChar (m / 256 % 16),
                     Nat.digitChar (m / 16 % 16), Nat.digitChar (m % 16)]

/-- The disassembler, `disassemble(instruction, immediate)`: formats the
two register fields as zero-padded decimal indices and dispatches on the
6-bit opcode to build the display string.  The JSH arm recomputes the
sign-extended 10-bit offset and prints it instead of register operands;
unrecognised opcodes yield the empty string. -/
def disassemble (instruction immediate : Nat) : String :=
  let source := pad2 ((instruction &&& 0b1111100000000000) >>> 11)
  let destination := pad2 ((instruction &&& 0b0000011111000000) >>> 6)
  let opcode := instruction &&& 0b0000000000111111
  if opcode = 0b000000 then "ADD  r" ++ destination ++ ", r" ++ source
  else if opcode = 0b000001 then "SUB  r" ++ destination ++ ", r" ++ source
  else if opcode = 0b000010 then "AND  r" ++ destination ++ ", r" ++ source
  else if opcode = 0b000011 then "OR   r" ++ destination ++ ", r" ++ source
  else if opcode = 0b000100 then "XOR  r" ++ destination ++ ", r" ++ source
  else if opcode = 0b000101 then "SLL  r" ++ destination ++ ", r" ++ source
  else if opcode = 0b000110 then "SRL  r" ++ destination ++ ", r" ++ source
  else if opcode = 0b000111 then "SRA  r" ++ destination ++ ", r" ++ source
  else if opcode = 0b001000 then
    "ADDI r" ++ destination ++ ", r" ++ source ++ ", " ++ hex4 immediate
  else if opcode = 0b001010 then
    "ANDI r" ++ destination ++ ", r" ++ source ++ ", " ++ hex4 immediate
  else if opcode = 0b001011 then
    "ORI  r" ++ destination ++ ", r" ++ source ++ ", " ++ hex4 immediate
  else if opcode = 0b001100 then
    "XORI r" ++ destination ++ ", r" ++ source ++ ", " ++ hex4 immediate
  else if opcode = 0b001101 then
    "SFTI r" ++ destination ++ ", r" ++ source ++ ", " ++ hex4 immediate
  else if opcode = 0b001111 then
    "SRAI r" ++ destination ++ ", r" ++ source ++ ", " ++ hex4 immediate
  else if opcode = 0b010000 then "LD   r" ++ destination ++ ", r" ++ source
  else if opcode = 0b010001 then "ST   r" ++ destination ++ ", r" ++ source
  else if opcode = 0b011000 then
    "LDIO r" ++ destination ++ ", r" ++ source ++ ", " ++ hex4 immediate
  else if opcode = 0b011001 then
    "STIO r" ++ destination ++ ", r" ++ source ++ ", " ++ hex4 immediate
  else if opcode = 0b101000 then
    "JAL  r" ++ destination ++ ", r" ++ source ++ ", " ++ hex4 immediate
  else if opcode = 0b101001 then
    "JSH            " ++
      hex4 (i16bits ((toInt16 (instruction &&& 0b1111111111000000)).fdiv 64))
  else if opcode = 0b101010 then
    "BEQ  r" ++ destination ++ ", r" ++ source ++ ", " ++ hex4 immediate
  else if opcode = 0b101011 then
    "BNE  r" ++ destination ++ ", r" ++ source ++ ", " ++ hex4 immediate
  else if opcode = 0b101100 then
    "BLT  r" ++ destination ++ ", r" ++ source ++ ", " ++ hex4 immediate
  else if opcode = 0b101101 then
    "BGE  r" ++ destination ++ ", r" ++ source ++ ", " ++ hex4 immediate
  else if opcode = 0b101110 then
    "BLTU r" ++ destination ++ ", r" ++ source ++ ", " ++ hex4 immediate
  else if opcode = 0b101111 then
    "BGEU r" ++ destination ++ ", r" ++ source ++ ", " ++ hex4 immediate
  else ""

/-- The execute engine's opcode table, read off the dispatch arms of
`Cpu::step`: the mnemonic each recognised opcode stands for, `none` for
the opcodes that fall to the catch-all branch. -/
def engineMnemonic (op : Nat) : Option String :=
  if op = 0b000000 then some "ADD"
  else if op = 0b000001 then some "SUB"
  else if op = 0b000010 then some "AND"
  else if op = 0b000011 then some "OR"
  else if op = 0b000100 then some "XOR"
  else if op = 0b000101 then some "SLL"
  else if op = 0b000110 then some "SRL"
  else if op = 0b000111 then some "SRA"
  else if op = 0b001000 then some "ADDI"
  else if op = 0b001010 then some "ANDI"
  else if op = 0b001011 then some "ORI"
  else if op = 0b001100 then some "XORI"
  else if op = 0b001101 then some "SFTI"
  else if op = 0b001111 then some "SRAI"
  else if op = 0b010000 then some "LD"
  else if op = 0b010001 then some "ST"
  else if op = 0b011000 then some "LDIO"
  else if op = 0b011001 then some "STIO"
  else if op = 0b101000 then some "JAL"
  else if op = 0b101001 then some "JSH"
  else if op = 0b101010 then some "BEQ"
  else if op = 0b101011 then some "BNE"
  else if op = 0b101100 then some "BLT"
  else if op = 0b101101 then some "BGE"
  else if op = 0b101110 then some "BLTU"
  else if op = 0b101111 then some "BGEU"
  else none

/-- The opcodes whose execute arm reads the fetched immediate word. -/
def engineUsesImmediate (op : Nat) : Bool :=
  op == 8 || op == 10 || op == 11 || op == 12 || op == 13 || op == 15 ||
  op == 24 || op == 25 || op == 40 || op == 42 || op == 43 || op == 44 ||
  op == 45 || op == 46 || op == 47

/-- Pad a mnemonic to the five-column operand offset used by the display
format. -/
def padTo5 (m : String) : String := m ++ String.mk (List.replicate (5 - m.length) ' ')

/-- The display string predicted from the execute engine's side of the
decode table, following the format contract of the specification: the
engine's mnemonic for the opcode, the destination and source register
fields exactly as the engine extracts them, an immediate operand exactly
for the opcodes whose execute arm consumes the immediate word, the JSH
offset recomputed by the engine's own sign extension, and the empty string
for every opcode the engine does not recognise. -/
def engineView (instruction immediate : Nat) : String :=
  let op := instruction &&& 0b0000000000111111
  match engineMnemonic op with
  | none => ""
  | some m =>
    if op = 0b101001 then
      m ++ "            " ++ hex4 (i16bits (jshOffset instruction))
    else if engineUsesImmediate op then
      padTo5 m ++ "r" ++ pad2 (dstIndex instruction) ++ ", r" ++
        pad2 (srcIndex instruction) ++ ", " ++ hex4 immediate
    else
      padTo5 m ++ "r" ++ pad2 (dstIndex instruction) ++ ", r" ++
        pad2 (srcIndex instruction)

/-- Whitespace as matched by the command patterns (the ASCII cases). -/
def isWs (c : Char) : Bool :=
  c = ' ' || c = '\t' || c = '\n' || c = '\x0d' || c = '\x0b' || c = '\x0c'

/-- Lower-case a string, for the case-insensitive command patterns. -/
def lowerStr (s : String) : String := String.mk (s.data.map Char.toLower)

/-- Drop leading whitespace from a character list. -/
def dropWsL : List Char → List Char
  | [] => []
  | c :: cs => if isWs c then dropWsL cs else c :: cs

/-- Split a character list into maximal whitespace-free runs, carrying the
reversed current run as an accumulator. -/
def tokensAux : List Char → List Char → List (List Char)
  | [], acc => if acc.isEmpty then [] else [acc.reverse]
  | c :: cs, acc =>
    if isWs c then
      if acc.isEmpty then tokensAux cs [] else acc.reverse :: tokensAux cs []
    else tokensAux cs (c :: acc)

/-- The whitespace-separated tokens of a command line. -/
def tokensOf (s : String) : List String :=
  (tokensAux s.data []).map String.mk

/-- Strip leading and trailing whitespace, as the invalid-command message
does to the rejected command line. -/
def trimStr (s : String) : String :=
  String.mk ((dropWsL (dropWsL s.data.reverse).reverse))

/-- Decimal digit test for the command number patterns. -/
def isDec (c : Char) : Bool := c.isDigit

/-- Hexadecimal digit test, both cases, for the command number patterns. -/
def isHex (c : Char) : Bool :=
  c.isDigit || ('a' ≤ c && c ≤ 'f') || ('A' ≤ c && c ≤ 'F')

/-- Binary digit test for the command number patterns. -/
def isBin (c : Char) : Bool := c = '0' || c = '1'

/-- Numeric value of one hexadecimal digit character. -/
def hexDigVal (c : Char) : Nat :=
  if c.isDigit then c.toNat - 48
  else if 'a' ≤ c && c ≤ 'f' then c.toNat - 87
  else c.toNat - 55

/-- Value of a digit string in a given base. -/
def radixVal (base : Nat) (cs : List Char) : Nat :=
  cs.foldl (fun acc c => acc * base + hexDigVal c) 0

/-- The numeral alternatives of the STEP and LOAD patterns: a token is
either a plain decimal numeral, or 0x followed by hexadecimal digits, or
0b followed by binary digits, all case-insensitively; tried in that
order.  Returns the unbounded numeric value of a matching token, `none`
when the token matches no alternative.  The range check of the 16-bit
parse happens separately, as in the source. -/
def litValue? (t : String) : Option Nat :=
  let cs := t.data
  if !cs.isEmpty && cs.all isDec then some (radixVal 10 cs)
  else
    match cs with
    | c0 :: cx :: rest =>
      if c0 = '0' && (cx = 'x' || cx = 'X') && !rest.isEmpty && rest.all isHex then
        some (radixVal 16 rest)
      else if c0 = '0' && (cx = 'b' || cx = 'B') && !rest.isEmpty && rest.all isBin then
        some (radixVal 2 rest)
      else none
    | _ => none

/-- The RUN command pattern: optional surrounding whitespace around the
word run, case-insensitively. -/
def runCmd (buf : String) : Bool :=
  (tokensOf buf).map lowerStr == ["run"]

/-- The HALT command pattern. -/
def haltCmd (buf : String) : Bool :=
  (tokensOf buf).map lowerStr == ["halt"]

/-- The STEP command pattern: the word step, optionally followed by one
numeral token.  `some none` means a bare step, `some (some t)` carries the
lower-cased numeral token, `none` means the pattern does not match. -/
def stepCmd? (buf : String) : Option (Option String) :=
  match tokensOf buf with
  | [w] => if lowerStr w = "step" then some none else none
  | [w, t] =>
    if lowerStr w = "step" && (litValue? (lowerStr t)).isSome then
      some (some (lowerStr t))
    else none
  | _ => none

/-- The LOAD command pattern: the word load, an optional numeral token for
the target address, then the file name, which extends to the end of the
line and may contain further whitespace.  When the first token after load
is a complete numeral and something follows it, the numeral is the
address; otherwise everything after load is the file name.  Returns the
optional lower-cased address token and the file name. -/
def loadCmd? (buf : String) : Option (Option String × String) :=
  match dropWsL buf.data with
  | c1 :: c2 :: c3 :: c4 :: rest =>
    if lowerStr (String.mk [c1, c2, c3, c4]) = "load" &&
        !rest.isEmpty && isWs (rest.headD ' ') then
      let r1 := dropWsL rest
      let tok := r1.takeWhile (fun c => !isWs c)
      let fname := dropWsL (r1.dropWhile (fun c => !isWs c))
      if (litValue? (lowerStr (String.mk tok))).isSome && !fname.isEmpty then
        some (some (lowerStr (String.mk tok)), String.mk fname)
      else if !r1.isEmpty then some (none, String.mk r1)
      else none
    else none
  | _ => none

/-- Big-endian word assembly of a loaded byte stream, as performed on a
little-endian host: consecutive byte pairs become one word, high byte
first; a trailing odd byte is dropped. -/
def bytesToWords : List Nat → List Nat
  | b0 :: b1 :: rest => ((b0 % 256) * 256 + b1 % 256) :: bytesToWords rest
  | _ => []

/-- Write a list of words into memory at consecutive addresses, the
modelled `copy_from_slice` into the RAM range. -/
def writeWords : (Nat → Nat) → Nat → List Nat → (Nat → Nat)
  | ram, _, [] => ram
  | ram, a, w :: ws => writeWords (upd ram a w) (a + 1) ws

/-- The interpreter state, mirroring `struct App` up to the fields the
command execution touches: the engine, the command line being executed,
the run flag and the bounded history of fetched instruction pairs.  The
stored result message of the previous command is not modelled; command
execution only produces it. -/
structure App where
  cpu : Cpu
  command_buffer : String
  running : Bool
  instruction_history : List (Nat × Nat)

/-- `App::step`: record the instruction and immediate words about to be
executed in the bounded history, then step the engine. -/
def appStep (a : App) : App :=
  let instruction := a.cpu.ram a.cpu.program_counter
  let immediate := a.cpu.ram (wadd a.cpu.program_counter 1)
  let h := a.instruction_history ++ [(instruction, immediate)]
  let h := if 255 < h.length then h.tail else h
  { a with cpu := step a.cpu, instruction_history := h }

/-- Iterated `App::step`, the loop of the STEP command. -/
def appStepN (a : App) : Nat → App
  | 0 => a
  | n + 1 => appStepN (appStep a) n

/-- The three ways command execution can end: a success with a message, an
error result carried back to the caller with the interpreter state as the
function left it, or a stop of the whole program (the out-of-range RAM
slice in the load path). -/
inductive CmdOutcome where
  | ok : App → String → CmdOutcome
  | err : App → String → CmdOutcome
  | panicked : CmdOutcome

/-- The load tail of the command execution: read the file, assemble the
words big-endian and copy them into RAM starting at the given address.  A
copy whose end lies past address 65536 is an out-of-bounds slice of the
RAM array and stops the program rather than returning an error. -/
def performLoad (fsread : String → Option (List Nat)) (a : App)
    (addr : Nat) (filename : String) : CmdOutcome :=
  match fsread filename with
  | none => .err a "No such file or directory (os error 2)"
  | some bytes =>
    if 65536 < addr + (bytesToWords bytes).length then .panicked
    else
      .ok { a with cpu :=
              { a.cpu with ram := writeWords a.cpu.ram addr (bytesToWords bytes) } }
        ("Loaded " ++ hex4 (bytesToWords bytes).length ++ " words from " ++ filename ++
         " into RAM at address " ++ hex4 addr ++ ".")

/-- `App::execute_command_with_result`, with the file system supplied as a
function from file names to optional byte lists: try the RUN, HALT, STEP
and LOAD patterns in order; parse matched numerals with a 16-bit range
check (an out-of-range numeral is the parse error the source propagates);
a command matching no pattern is reported as invalid. -/
def executeCommandWithResult (fsread : String → Option (List Nat)) (a : App) :
    CmdOutcome :=
  if runCmd a.command_buffer then
    .ok { a with running := true } "Running simulation."
  else if haltCmd a.command_buffer then
    .ok { a with running := false }
      ("Simulation halted at " ++ hex4 a.cpu.program_counter ++ ".")
  else
    match stepCmd? a.command_buffer with
    | some none => .ok (appStepN a 1) ("Stepping simulation " ++ hex4 1 ++ " times.")
    | some (some t) =>
      match litValue? t with
      | none => .err a "invalid digit found in string"
      | some raw =>
        if raw < 65536 then
          .ok (appStepN a raw) ("Stepping simulation " ++ hex4 raw ++ " times.")
        else .err a "number too large to fit in target type"
    | none =>
      match loadCmd? a.command_buffer with
      | some (none, filename) => performLoad fsread a 0 filename
      | some (some t, filename) =>
        match litValue? t with
        | none => .err a "invalid digit found in string"
        | some raw =>
          if raw < 65536 then performLoad fsread a raw filename
          else .err a "number too large to fit in target type"
      | none =>
        .err a ("\"" ++ trimStr a.command_buffer ++
          "\" is not a valid command. Supported commands are RUN, HALT, STEP, SET, and LOAD.")


/-- A machine about to run, at address 0, ADDI with destination field 0 and
source field 0 (instruction word 0x0008, immediate word 5), followed at
address 2 by ST with destination field 0 and source field 1 (instruction
word 0x0811); register 1 holds the target address 100. -/
def c1Cpu : Cpu :=
  { registers := fun i => if i = 1 then 100 else 0,
    program_counter := 0,
    ram := fun a => if a = 0 then 8 else if a = 1 then 5 else if a = 2 then 2065 else 0 }

/-- A machine whose current instruction word is 63: source and destination
fields zero, opcode 0b111111, which is not assigned. -/
def c2Cpu : Cpu :=
  { registers := fun _ => 0, program_counter := 7, ram := fun _ => 63 }

/-- A machine about to execute SLL (instruction word 2181: source field 1,
destination field 2, opcode 0b000101) with register 1 holding 16, a shift
amount one past the width of the word. -/
def c3Cpu : Cpu :=
  { registers := fun i => if i = 1 then 16 else 0,
    program_counter := 0, ram := fun _ => 2181 }

/-- The same SLL instruction with register 1 holding 0x8000, the 16-bit
signed minimum, whose negation overflows. -/
def c3CpuMin : Cpu :=
  { registers := fun i => if i = 1 then 32768 else 0,
    program_counter := 0, ram := fun _ => 2181 }

/-- A machine about to execute JSH with offset bits 0000000010: the
instruction word 169 = 2 * 64 + 41, at program counter 10. -/
def c5Plus : Cpu :=
  { registers := fun _ => 0, program_counter := 10, ram := fun _ => 169 }

/-- A machine about to execute JSH with offset bits 1111111110: the
instruction word 65449 = 1022 * 64 + 41, at program counter 10. -/
def c5Minus : Cpu :=
  { registers := fun _ => 0, program_counter := 10, ram := fun _ => 65449 }

/-- A machine holding 5 in register 1 and 3 in register 2, with ADD on
destination 1 and source 2 (word 4160) at address 0 and SUB on the same
fields (word 4161) at address 1. -/
def c6Cpu : Cpu :=
  { registers := fun i => if i = 1 then 5 else if i = 2 then 3 else 0,
    program_counter := 0,
    ram := fun a => if a = 0 then 4160 else if a = 1 then 4161 else 0 }

/-- A machine about to execute SLL on destination register 2 (holding the
value 240) with source register 1 holding the amount 3: instruction word
2181 at address 0. -/
def c7Sll : Cpu :=
  { registers := fun i => if i = 1 then 3 else if i = 2 then 240 else 0,
    program_counter := 0, ram := fun _ => 2181 }

/-- The matching SRL machine: instruction word 2182, register 1 holding
the two's-complement negation 65533 of the amount 3. -/
def c7Srl : Cpu :=
  { registers := fun i => if i = 1 then 65533 else if i = 2 then 240 else 0,
    program_counter := 0, ram := fun _ => 2182 }

/-- A machine at counter 0xFFFF whose every cell holds the ADD instruction
word 0. -/
def c8Add : Cpu :=
  { registers := fun _ => 0, program_counter := 65535, ram := fun _ => 0 }

/-- A machine at counter 0xFFFF holding ADDI with zero fields (word 8)
there, and the value 77 at address 0, which doubles as the immediate. -/
def c8Addi : Cpu :=
  { registers := fun _ => 0, program_counter := 65535,
    ram := fun a => if a = 65535 then 8 else if a = 0 then 77 else 0 }

/-- A file system holding one file named f with the four bytes 1, 2, 3, 4
(two words after assembly). -/
def fsBig : String → Option (List Nat) :=
  fun n => if n = "f" then some [1, 2, 3, 4] else none

/-- An interpreter on a fresh machine whose pending command asks to load
that two-word file at address 0xffff, one word past the last cell. -/
def appLoad : App :=
  { cpu := { registers := fun _ => 0, program_counter := 0, ram := fun _ => 0 },
    command_buffer := "load 0xffff f", running := false, instruction_history := [] }

/-- An empty file system: every read fails. -/
def fsNone : String → Option (List Nat) := fun _ => none

/-- An interpreter whose pending command matches no command pattern. -/
def appBad : App :=
  { cpu := { registers := fun _ => 0, program_counter := 0, ram := fun _ => 0 },
    command_buffer := "bogus", running := false, instruction_history := [] }

/-- A machine about to execute ST (instruction word 2193: source field 1,
destination field 2, opcode 0b010001) with register 1 holding the store
address 5 and register 2 holding the value 9. -/
def c10Cpu : Cpu :=
  { registers := fun i => if i = 1 then 5 else if i = 2 then 9 else 0,
    program_counter := 0, ram := fun _ => 2193 }

/-- A 16-bit word strictly between 0 and 0x8000 reads as a positive signed
value. -/
theorem isPos16_true (n : Nat) (h1 : 0 < n % 65536) (h2 : n % 65536 < 32768) :
    isPos16 n = true := by
  simp only [isPos16, toInt16, if_pos h2, decide_eq_true_eq]
  exact_mod_cast h1

/-- A 16-bit word with the top bit set reads as a non-positive signed
value. -/
theorem isPos16_false_hi (n : Nat) (h : 32768 ≤ n % 65536) : isPos16 n = false := by
  simp only [isPos16, toInt16, if_neg (by omega : ¬ n % 65536 < 32768),
    decide_eq_false_iff_not]
  have hlt : n % 65536 < 65536 := Nat.mod_lt _ (by norm_num)
  omega

/-- On an instruction word whose bits 15 to 6 hold the ten-bit field
`hi4`, the engine's JSH offset computation (mask, signed cast, arithmetic
shift) produces exactly the sign extension of that field. -/
theorem jshOffset_eq_signExt10 (instr hi4 : Nat) (h10 : hi4 < 1024)
    (h : instr &&& 0b1111111111000000 = hi4 * 64) :
    jshOffset instr = signExt10 hi4 := by
  unfold jshOffset signExt10 toInt16
  rw [h, Nat.mod_eq_of_lt (by omega : hi4 * 64 < 65536)]
  by_cases hc : hi4 < 512
  · rw [if_pos (by omega : hi4 * 64 < 32768), if_pos hc,
      show ((hi4 * 64 : Nat) : Int) = (hi4 : Int) * 64 by push_cast; ring,
      Int.mul_fdiv_cancel _ (by norm_num)]
  · rw [if_neg (by omega : ¬ hi4 * 64 < 32768), if_neg hc,
      show ((hi4 * 64 : Nat) : Int) - 65536 = ((hi4 : Int) - 1024) * 64 by push_cast; ring,
      Int.mul_fdiv_cancel _ (by norm_num)]

/-- C1.  The register-zero invariant fails on the code: the destination
slot of register 0 is written without being discarded, and the written
value is observable both through the exposed register file and through a
later step.  Starting from `c1Cpu`, the ADDI with destination field 0
leaves 5 in register 0, and the following ST with destination field 0
stores that 5 into memory cell 100.  The claim demands that every read of
register 0 after a write yields 0x0000; the engine's own comments state
the same, so this is a defect of the code. -/
theorem c1_reg0_write_observable :
    (step c1Cpu).registers 0 = 5 ∧ (step (step c1Cpu)).ram 100 = 5 := by
  constructor <;> rfl

/-- C2, counterexample.  The claim says an unassigned opcode advances the
program counter by 1; on the code the catch-all branch leaves the counter
untouched: stepping `c2Cpu` (opcode 0b111111 at counter 7) does not move
the counter to 8. -/
theorem c2_unassigned_pc_counterexample :
    ¬ (step c2Cpu).program_counter = (c2Cpu.program_counter + 1) % 65536 := by
  decide

/-- C2, amended.  The step operation treats every unassigned opcode as a
no-operation which leaves all registers, all memory cells and also the
program counter exactly unchanged, and never signals an error. -/
theorem c2_unassigned_opcode_nop (s : Cpu)
    (h : isAssigned (s.ram s.program_counter &&& 0b0000000000111111) = false) :
    (∀ i, (step s).registers i = s.registers i) ∧
    (∀ a, (step s).ram a = s.ram a) ∧
    (step s).program_counter = s.program_counter := by
  simp only [isAssigned, Bool.or_eq_false_iff, beq_eq_false_iff_ne, and_assoc] at h
  obtain ⟨h0, h1, h2, h3, h4, h5, h6, h7, h8, h10, h11, h12, h13, h15, h16,
    h17, h24, h25, h40, h41, h42, h43, h44, h45, h46, h47⟩ := h
  have hs : step s = s := by
    simp [step, h0, h1, h2, h3, h4, h5, h6, h7, h8, h10, h11, h12, h13, h15,
      h16, h17, h24, h25, h40, h41, h42, h43, h44, h45, h46, h47]
  exact ⟨fun i => by rw [hs], fun a => by rw [hs], by rw [hs]⟩

/-- C2, witness for the amended theorem at the concrete state `c2Cpu`. -/
theorem c2_unassigned_opcode_nop_witness :
    isAssigned (c2Cpu.ram c2Cpu.program_counter &&& 0b0000000000111111) = false ∧
    (step c2Cpu).program_counter = c2Cpu.program_counter := by
  refine ⟨by decide, ?_⟩
  exact (c2_unassigned_opcode_nop c2Cpu (by decide)).2.2

/-- C3.  An overflow-checked build of the engine faults on shift amounts
the claim requires it to survive: with the SLL source operand 16 the
checked left shift overflows, and with the operand 0x8000 the 16-bit
negation overflows.  The claim (and the specification) require a
well-formed next state for these inputs, so this is a defect of the code;
a build without overflow checks instead reduces the amount modulo the bit
width, which is what `step` models. -/
theorem c3_checked_build_shift_fault :
    stepShiftPanics c3Cpu = true ∧ stepShiftPanics c3CpuMin = true := by
  decide

/-- C4.  The disassembler agrees with the execute engine's decode table on
every instruction word: the rendered string is exactly the one predicted
from the engine's mnemonic table, the engine's source and destination
field extraction, the engine's use of the immediate word, and the engine's
JSH sign extension — and the empty string wherever the engine recognises
no opcode. -/
theorem c4_disassembler_engine_agreement (instruction immediate : Nat) :
    disassemble instruction immediate = engineView instruction immediate := by
  obtain ⟨k, hlt, hk⟩ : ∃ k, k < 64 ∧ instruction &&& 63 = k :=
    ⟨_, Nat.lt_succ_of_le Nat.and_le_right, rfl⟩
  interval_cases k <;>
    simp [disassemble, engineView, engineMnemonic, engineUsesImmediate,
      padTo5, srcIndex, dstIndex, jshOffset, hk] <;>
    rfl

/-- C5.  Executing JSH changes the program counter by exactly the
sign-extended ten-bit value of instruction bits 15 to 6, modulo 2^16; it
writes no register and no memory cell (in particular it consumes no
immediate word), and the disassembler displays that very same
sign-extended offset. -/
theorem c5_jsh_semantics (s : Cpu) (hi4 : Nat) (h10 : hi4 < 1024)
    (hbits : s.ram s.program_counter &&& 0b1111111111000000 = hi4 * 64)
    (hop : s.ram s.program_counter &&& 0b0000000000111111 = 41) :
    (step s).program_counter = (((s.program_counter : Int) + signExt10 hi4) % 65536).toNat
    ∧ (∀ i, (step s).registers i = s.registers i)
    ∧ (∀ a, (step s).ram a = s.ram a)
    ∧ (∀ w, disassemble (s.ram s.program_counter) w =
        "JSH            " ++ hex4 (i16bits (signExt10 hi4))) := by
  have hoff := jshOffset_eq_signExt10 (s.ram s.program_counter) hi4 h10 hbits
  refine ⟨?_, fun i => ?_, fun a => ?_, fun w => ?_⟩
  · simp [step, hop, waddSigned, hoff]
  · simp [step, hop]
  · simp [step, hop]
  · simp only [disassemble, hop]
    norm_num
    rw [show (toInt16 (s.ram s.program_counter &&& 65472)).fdiv 64 =
          jshOffset (s.ram s.program_counter) from rfl, hoff]

/-- C5, witness: the positive offset moves the counter from 10 to 12, the
negative one from 10 to 8. -/
theorem c5_jsh_semantics_witness :
    (step c5Plus).program_counter = 12 ∧ (step c5Minus).program_counter = 8 := by
  have h1 := c5_jsh_semantics c5Plus 2 (by decide) (by decide) (by decide)
  have h2 := c5_jsh_semantics c5Minus 1022 (by decide) (by decide) (by decide)
  exact ⟨h1.1.trans (by decide), h2.1.trans (by decide)⟩

/-- C6.  ADD then SUB with the same source and destination registers
restores the destination: if the destination register (distinct from the
source register) holds `a` and the source register holds `b`, and the
instruction at the counter is ADD on those registers followed by SUB on
the same registers, then after two steps the destination holds `a`
again. -/
theorem c6_add_sub_roundtrip (s : Cpu) (di si a b : Nat)
    (hne : si ≠ di) (hs0 : si ≠ 0)
    (ha16 : a < 65536) (hb16 : b < 65536)
    (hop1 : s.ram s.program_counter &&& 0b0000000000111111 = 0)
    (hsi1 : srcIndex (s.ram s.program_counter) = si)
    (hdi1 : dstIndex (s.ram s.program_counter) = di)
    (hop2 : s.ram (wadd s.program_counter 1) &&& 0b0000000000111111 = 1)
    (hsi2 : srcIndex (s.ram (wadd s.program_counter 1)) = si)
    (hdi2 : dstIndex (s.ram (wadd s.program_counter 1)) = di)
    (ha : s.registers di = a) (hb : s.registers si = b) :
    (step (step s)).registers di = a := by
  have hm1 : ¬ s.ram s.program_counter &&& 0b1111100000000000 = 0 := by
    intro hz
    rw [srcIndex, hz] at hsi1
    simp at hsi1
    exact hs0 hsi1.symm
  have h1 : step s = { s with registers := upd s.registers di (wadd a b),
                              program_counter := wadd s.program_counter 1 } := by
    simp [step, hop1, hm1, hsi1, hdi1, ha, hb]
  have hm2 : ¬ s.ram (wadd s.program_counter 1) &&& 0b1111100000000000 = 0 := by
    intro hz
    rw [srcIndex, hz] at hsi2
    simp at hsi2
    exact hs0 hsi2.symm
  rw [h1]
  simp [step, hop2, hm2, hsi2, hdi2, upd, hne, hb]
  simp [wadd, wsub]
  omega

/-- C6, witness: on `c6Cpu` the two steps return register 1 to 5. -/
theorem c6_add_sub_roundtrip_witness : (step (step c6Cpu)).registers 1 = 5 :=
  c6_add_sub_roundtrip c6Cpu 1 2 5 3 (by decide) (by decide) (by decide)
    (by decide) (by decide) (by decide) (by decide) (by decide) (by decide)
    (by decide) (by decide) (by decide)

/-- C7.  Shift direction symmetry: on a destination value `d` and a shift
amount `k` of at most 15, SLL with source value `k` computes the same
destination result as SRL with source value `-k` in two's complement. -/
theorem c7_sll_srl_symmetry (s₁ s₂ : Cpu) (di si d k : Nat)
    (hk : k ≤ 15) (hd : d < 65536) (hs0 : si ≠ 0)
    (h1op : s₁.ram s₁.program_counter &&& 0b0000000000111111 = 5)
    (h1si : srcIndex (s₁.ram s₁.program_counter) = si)
    (h1di : dstIndex (s₁.ram s₁.program_counter) = di)
    (h2op : s₂.ram s₂.program_counter &&& 0b0000000000111111 = 6)
    (h2si : srcIndex (s₂.ram s₂.program_counter) = si)
    (h2di : dstIndex (s₂.ram s₂.program_counter) = di)
    (h1d : s₁.registers di = d) (h2d : s₂.registers di = d)
    (h1k : s₁.registers si = k) (h2k : s₂.registers si = (65536 - k) % 65536) :
    (step s₁).registers di = (step s₂).registers di := by
  have hm1 : ¬ s₁.ram s₁.program_counter &&& 0b1111100000000000 = 0 := by
    intro hz
    rw [srcIndex, hz] at h1si
    simp at h1si
    exact hs0 h1si.symm
  have hm2 : ¬ s₂.ram s₂.program_counter &&& 0b1111100000000000 = 0 := by
    intro hz
    rw [srcIndex, hz] at h2si
    simp at h2si
    exact hs0 h2si.symm
  by_cases hk0 : k = 0
  · subst hk0
    simp [step, h1op, h2op, hm1, hm2, h1si, h2si, h1di, h2di, h1d, h2d,
      h1k, h2k, upd, isPos16, toInt16, negBits, shlMask, shrMask,
      Nat.mod_eq_of_lt hd]
  · have hpos : isPos16 k = true := isPos16_true k (by omega) (by omega)
    have hneg : isPos16 ((65536 - k) % 65536) = false :=
      isPos16_false_hi _ (by omega)
    simp [step, h1op, h2op, hm1, hm2, h1si, h2si, h1di, h2di, h1d, h2d,
      h1k, h2k, upd, hpos, hneg]
    rw [show negBits ((65536 - k) % 65536) = k from by unfold negBits; omega]

/-- C7, witness: on the concrete pair the two destination results agree. -/
theorem c7_sll_srl_symmetry_witness :
    (step c7Sll).registers 2 = (step c7Srl).registers 2 :=
  c7_sll_srl_symmetry c7Sll c7Srl 2 1 240 3 (by decide) (by decide) (by decide)
    (by decide) (by decide) (by decide) (by decide) (by decide) (by decide)
    (by decide) (by decide) (by decide) (by decide)

/-- C8.  Counter arithmetic wraps modulo 2^16: at counter 0xFFFF, any of
the one-word instructions that advance by one (the register arithmetic,
logic and shift opcodes, LD and ST) leaves the counter at 0x0000, and the
immediate word of a two-word instruction at 0xFFFF is fetched from the
wrapped address 0x0000, witnessed through ADDI with a zero source field
loading exactly `ram 0`. -/
theorem c8_pc_wraparound (s : Cpu) (hpc : s.program_counter = 65535) :
    ((s.ram 65535 &&& 0b0000000000111111 = 0 ∨
      s.ram 65535 &&& 0b0000000000111111 = 1 ∨
      s.ram 65535 &&& 0b0000000000111111 = 2 ∨
      s.ram 65535 &&& 0b0000000000111111 = 3 ∨
      s.ram 65535 &&& 0b0000000000111111 = 4 ∨
      s.ram 65535 &&& 0b0000000000111111 = 5 ∨
      s.ram 65535 &&& 0b0000000000111111 = 6 ∨
      s.ram 65535 &&& 0b0000000000111111 = 7 ∨
      s.ram 65535 &&& 0b0000000000111111 = 16 ∨
      s.ram 65535 &&& 0b0000000000111111 = 17) →
      (step s).program_counter = 0)
    ∧ (s.ram 65535 &&& 0b0000000000111111 = 8 →
       s.ram 65535 &&& 0b1111100000000000 = 0 →
       (step s).registers (dstIndex (s.ram 65535)) = s.ram 0 % 65536) := by
  constructor
  · rintro (h | h | h | h | h | h | h | h | h | h) <;>
      simp [step, hpc, h, wadd]
  · intro h8 hsrc
    simp [step, hpc, h8, hsrc, wadd, upd]

/-- C8, witness: stepping `c8Add` wraps the counter to 0, and stepping
`c8Addi` loads the immediate fetched at the wrapped address 0. -/
theorem c8_pc_wraparound_witness :
    (step c8Add).program_counter = 0 ∧ (step c8Addi).registers 0 = 77 := by
  have h1 := (c8_pc_wraparound c8Add rfl).1 (Or.inl (by decide))
  have h2 := (c8_pc_wraparound c8Addi rfl).2 (by decide) (by decide)
  rw [show dstIndex (c8Addi.ram 65535) = 0 from by decide] at h2
  exact ⟨h1, h2.trans (by decide)⟩

/-- C9, counterexample.  A file too large for the target address range is
rejected, but the rejection is not surfaced as an error result: the RAM
slice copy is out of bounds and the program stops.  On `appLoad` (load a
two-word file at 0xffff) command execution panics instead of returning an
error with the engine untouched, refuting the claim at this input. -/
theorem c9_oversized_load_panics :
    executeCommandWithResult fsBig appLoad = CmdOutcome.panicked := by
  rfl

/-- C9, amended.  Whenever command execution returns an error result
(malformed command text, missing file, or malformed numeric literal), the
engine inside the interpreter — registers, memory and program counter —
is exactly the one from before the attempt; but a file too large for the
target address range stops the program with an out-of-bounds slice
instead of producing an error result. -/
theorem c9_rejected_command_preserves_cpu (fsread : String → Option (List Nat))
    (a a₂ : App) (e : String)
    (h : executeCommandWithResult fsread a = CmdOutcome.err a₂ e) :
    a₂.cpu = a.cpu := by
  unfold executeCommandWithResult at h
  repeat' split at h
  all_goals try unfold performLoad at h
  repeat' split at h
  all_goals simp_all

/-- C9, witness for the amended theorem: the invalid command in `appBad`
is rejected with an error result, and the theorem yields that the engine
is unchanged. -/
theorem c9_rejected_command_preserves_cpu_witness :
    (executeCommandWithResult fsNone appBad = CmdOutcome.err appBad
      "\"bogus\" is not a valid command. Supported commands are RUN, HALT, STEP, SET, and LOAD.")
    ∧ appBad.cpu = appBad.cpu := by
  have hh : executeCommandWithResult fsNone appBad = CmdOutcome.err appBad
      "\"bogus\" is not a valid command. Supported commands are RUN, HALT, STEP, SET, and LOAD." := by
    rfl
  exact ⟨hh, c9_rejected_command_preserves_cpu fsNone appBad appBad _ hh⟩

/-- C10.  The memory frame property of one step: an instruction whose
opcode is neither ST (0b010001) nor STIO (0b011001) leaves every memory
cell unchanged, ST changes at most the cell at the source operand value,
and STIO changes at most the cell at the source operand plus the
immediate word, modulo 2^16. -/
theorem c10_memory_frame (s : Cpu) :
    ((¬ s.ram s.program_counter &&& 0b0000000000111111 = 17 ∧
      ¬ s.ram s.program_counter &&& 0b0000000000111111 = 25) →
      ∀ a, (step s).ram a = s.ram a)
    ∧ (s.ram s.program_counter &&& 0b0000000000111111 = 17 →
       ∀ a, ¬ a = (if s.ram s.program_counter &&& 0b1111100000000000 = 0 then 0
                   else s.registers (srcIndex (s.ram s.program_counter))) →
       (step s).ram a = s.ram a)
    ∧ (s.ram s.program_counter &&& 0b0000000000111111 = 25 →
       ∀ a, ¬ a = wadd (if s.ram s.program_counter &&& 0b1111100000000000 = 0 then 0
                        else s.registers (srcIndex (s.ram s.program_counter)))
                       (s.ram (wadd s.program_counter 1)) →
       (step s).ram a = s.ram a) := by
  refine ⟨fun h a => ?_, fun h a ha => ?_, fun h a ha => ?_⟩
  · obtain ⟨h17, h25⟩ := h
    obtain ⟨k, hlt, hk⟩ : ∃ k, k < 64 ∧ s.ram s.program_counter &&& 63 = k :=
      ⟨_, Nat.lt_succ_of_le Nat.and_le_right, rfl⟩
    interval_cases k <;> simp_all [step, upd]
  · obtain ⟨k, hlt, hk⟩ : ∃ k, k < 64 ∧ s.ram s.program_counter &&& 63 = k :=
      ⟨_, Nat.lt_succ_of_le Nat.and_le_right, rfl⟩
    interval_cases k <;> simp_all [step, upd]
  · obtain ⟨k, hlt, hk⟩ : ∃ k, k < 64 ∧ s.ram s.program_counter &&& 63 = k :=
      ⟨_, Nat.lt_succ_of_le Nat.and_le_right, rfl⟩
    interval_cases k <;> simp_all [step, upd]

/-- C10, witness: on the concrete ST machine, the cell at address 7,
distinct from the store address 5, is unchanged by the step. -/
theorem c10_memory_frame_witness : (step c10Cpu).ram 7 = c10Cpu.ram 7 :=
  (c10_memory_frame c10Cpu).2.1 (by decide) 7 (by decide)
